import Mathlib

/-!
Verification of two components of the hermes repository:

1. `RuntimeDomainAgent` (src/API/hermes/cdp/RuntimeDomainAgent.cpp): the
   Chrome DevTools Protocol Runtime domain agent with its enable/disable
   lifecycle and outbound message stream.
2. The `fs` internal bindings (src/unnamed/part_000): `canonicalizePath`
   and the JS-facing `open` / `close` / `fstat` helpers built on libuv.

The C++ is shallowly embedded: the agent becomes explicit state passing over
a record with the `enabled_` flag, each command returning the new state
together with the list of outbound messages it sends; the file helpers
become functions from an abstract OS oracle and a JS argument list to
`Except errorMessage value`.
-/

namespace Cdp

/-- CDP error codes (from the protocol; only `invalidRequest` is used by the
RuntimeDomainAgent source). -/
inductive ErrorCode where
  | parseError
  | invalidRequest
  | methodNotFound
  | internalError
  deriving DecidableEq, Repr

/-- Outbound messages a domain agent can send: responses to a request id and
notifications.  `executionContextCreated` carries the context id and name set
in `RuntimeDomainAgent::enable`. -/
inductive Message where
  | okResponse (id : Nat)
  | errorResponse (id : Nat) (code : ErrorCode) (msg : String)
  | executionContextCreated (ctxId : Nat) (name : String)
  deriving DecidableEq, Repr

/-- Modelled from the spec: the hard-coded Hermes execution context id
referenced by `RuntimeDomainAgent::enable` (declared outside src/). -/
def kHermesExecutionContextId : Nat := 1

/-- The agent state: the `enabled_` flag of `RuntimeDomainAgent`. -/
structure AgentState where
  enabled : Bool
  deriving DecidableEq, Repr

/-- `RuntimeDomainAgent::RuntimeDomainAgent`: the constructor initializes
`enabled_(false)`. -/
def initialState : AgentState := { enabled := false }

/-- `RuntimeDomainAgent::enable` (RuntimeDomainAgent.cpp lines 22-41):
reject with InvalidRequest if already enabled; otherwise set the flag, send
the Ok response, then send the execution-context-created notification. -/
def enable (s : AgentState) (reqId : Nat) : AgentState × List Message :=
  if s.enabled then
    (s, [Message.errorResponse reqId ErrorCode.invalidRequest
          "Runtime domain already enabled"])
  else
    ({ enabled := true },
      [Message.okResponse reqId,
       Message.executionContextCreated kHermesExecutionContextId "hermes"])

/-- `RuntimeDomainAgent::checkRuntimeEnabled` (lines 51-58): when not
enabled, send an InvalidRequest error response and return false; otherwise
return true sending nothing. -/
def checkRuntimeEnabled (s : AgentState) (reqId : Nat) : Bool × List Message :=
  if !s.enabled then
    (false, [Message.errorResponse reqId ErrorCode.invalidRequest
              "Runtime domain not enabled"])
  else
    (true, [])

/-- `RuntimeDomainAgent::disable` (lines 43-49): abort if the shared guard
fails, else clear the flag and send the Ok response. -/
def disable (s : AgentState) (reqId : Nat) : AgentState × List Message :=
  let c := checkRuntimeEnabled s reqId
  if c.1 = false then
    (s, c.2)
  else
    ({ enabled := false }, c.2 ++ [Message.okResponse reqId])

/-- The pattern every guarded Runtime command follows (as `disable` does):
call `checkRuntimeEnabled` first and abort, after its error response went
out, when it returns false; only when it returns true run the body. -/
def guarded (body : AgentState → Nat → AgentState × List Message)
    (s : AgentState) (reqId : Nat) : AgentState × List Message :=
  let c := checkRuntimeEnabled s reqId
  if c.1 = false then
    (s, c.2)
  else
    let r := body s reqId
    (r.1, c.2 ++ r.2)

/-- The lifecycle commands of the Runtime domain as present in the source. -/
inductive Cmd where
  | en (id : Nat)
  | dis (id : Nat)
  deriving DecidableEq, Repr

/-- One command against the agent. -/
def applyCmd (s : AgentState) (c : Cmd) : AgentState × List Message :=
  match c with
  | Cmd.en id => enable s id
  | Cmd.dis id => disable s id

/-- State after a sequence of commands applied to a fresh agent. -/
def run (cmds : List Cmd) : AgentState :=
  cmds.foldl (fun s c => (applyCmd s c).1) initialState

/-- Is a message an execution-context-created notification? -/
def isNote : Message → Bool
  | Message.executionContextCreated _ _ => true
  | _ => false

end Cdp

namespace Cdp

/-- C1: on a fresh agent (initially Disabled), after any sequence of
enable/disable commands, `enable` is accepted (Ok response sent, state
becomes Enabled) iff the current state is Disabled, and `disable` is
accepted (Ok response sent, state becomes Disabled) iff the current state is
Enabled. -/
theorem claim1_lifecycle_accepts (cmds : List Cmd) (id : Nat) :
    initialState.enabled = false ∧
    ((Message.okResponse id ∈ (enable (run cmds) id).2 ∧
        (enable (run cmds) id).1.enabled = true) ↔
      (run cmds).enabled = false) ∧
    ((Message.okResponse id ∈ (disable (run cmds) id).2 ∧
        (disable (run cmds) id).1.enabled = false) ↔
      (run cmds).enabled = true) := by
  refine ⟨rfl, ?_, ?_⟩ <;>
    cases h : (run cmds).enabled <;>
      simp [enable, disable, checkRuntimeEnabled, h]

/-- C2: a rejected `enable` (state Enabled) and a rejected `disable` (state
Disabled) each send exactly one InvalidRequest error response carrying the
request id, and leave the state unchanged. -/
theorem claim2_rejections (s : AgentState) (id : Nat) :
    (s.enabled = true →
      enable s id =
        (s, [Message.errorResponse id ErrorCode.invalidRequest
              "Runtime domain already enabled"])) ∧
    (s.enabled = false →
      disable s id =
        (s, [Message.errorResponse id ErrorCode.invalidRequest
              "Runtime domain not enabled"])) := by
  constructor
  · intro h
    cases s
    simp_all [enable]
  · intro h
    cases s
    simp_all [disable, checkRuntimeEnabled]

/-- Witness for C2 at concrete states. -/
theorem claim2_rejections_witness :
    (enable { enabled := true } 5 =
      ({ enabled := true }, [Message.errorResponse 5 ErrorCode.invalidRequest
        "Runtime domain already enabled"])) ∧
    (disable { enabled := false } 7 =
      ({ enabled := false }, [Message.errorResponse 7 ErrorCode.invalidRequest
        "Runtime domain not enabled"])) :=
  ⟨(claim2_rejections { enabled := true } 5).1 rfl,
   (claim2_rejections { enabled := false } 7).2 rfl⟩

/-- C3: an accepted `enable` sends exactly the Ok response followed by one
execution-context-created notification (so the response precedes the
notification and exactly one notification is emitted); a rejected `enable`
and `disable` in either state emit no notification. -/
theorem claim3_notification (s : AgentState) (id : Nat) :
    (s.enabled = false →
      (enable s id).2 =
        [Message.okResponse id,
         Message.executionContextCreated kHermesExecutionContextId "hermes"]) ∧
    (enable s id).2.countP isNote = (if s.enabled then 0 else 1) ∧
    (disable s id).2.countP isNote = 0 := by
  cases h : s.enabled <;>
    simp [enable, disable, checkRuntimeEnabled, isNote, h, List.countP_cons]

/-- Witness for C3 on a fresh (disabled) agent. -/
theorem claim3_notification_witness :
    (enable initialState 3).2 =
      [Message.okResponse 3,
       Message.executionContextCreated kHermesExecutionContextId "hermes"] :=
  (claim3_notification initialState 3).1 rfl

/-- C4: in every state reachable from a fresh agent in which the flag is
Disabled, the shared guard `checkRuntimeEnabled` returns false and sends the
InvalidRequest "Runtime domain not enabled" error response with the request
id, and every command built on the guard (in the source, `disable`) aborts
with exactly that response and no state change. -/
theorem claim4_guard_when_disabled
    (body : AgentState → Nat → AgentState × List Message)
    (cmds : List Cmd) (id : Nat)
    (h : (run cmds).enabled = false) :
    checkRuntimeEnabled (run cmds) id =
      (false, [Message.errorResponse id ErrorCode.invalidRequest
        "Runtime domain not enabled"]) ∧
    guarded body (run cmds) id =
      (run cmds, [Message.errorResponse id ErrorCode.invalidRequest
        "Runtime domain not enabled"]) ∧
    disable (run cmds) id =
      (run cmds, [Message.errorResponse id ErrorCode.invalidRequest
        "Runtime domain not enabled"]) := by
  refine ⟨?_, ?_, ?_⟩ <;>
    simp [checkRuntimeEnabled, guarded, disable, h]

/-- Witness for C4: after a fresh start followed by a rejected `disable`
(which leaves the agent Disabled), the guard still rejects. -/
theorem claim4_guard_when_disabled_witness :
    checkRuntimeEnabled (run [Cmd.dis 1]) 2 =
      (false, [Message.errorResponse 2 ErrorCode.invalidRequest
        "Runtime domain not enabled"]) ∧
    guarded (fun s _ => (s, [])) (run [Cmd.dis 1]) 2 =
      (run [Cmd.dis 1], [Message.errorResponse 2 ErrorCode.invalidRequest
        "Runtime domain not enabled"]) ∧
    disable (run [Cmd.dis 1]) 2 =
      (run [Cmd.dis 1], [Message.errorResponse 2 ErrorCode.invalidRequest
        "Runtime domain not enabled"]) :=
  claim4_guard_when_disabled (fun s _ => (s, [])) [Cmd.dis 1] 2 (by decide)

end Cdp

namespace Fs

/-- Split a character list into path components at each slash (the pieces
between separators, possibly empty). -/
def splitComps : List Char → List Char → List (List Char)
  | cur, [] => [cur.reverse]
  | cur, c :: rest =>
    if c = '/' then cur.reverse :: splitComps [] rest
    else splitComps (c :: cur) rest

/-- Modelled from the spec: `llvh::sys::path::remove_dots(.., true, posix)`
(outside src/) — normalize away `.` components, and resolve `..` against the
preceding component; on an absolute path a `..` at the root is dropped. -/
def removeDotsPosix (p : String) : String :=
  let isAbs : Bool := match p.data with
    | '/' :: _ => true
    | _ => false
  let comps := (splitComps [] p.data).filter (fun c => c ≠ [])
  let stackRev := comps.foldl
    (fun (acc : List (List Char)) c =>
      if c = ['.'] then acc
      else if c = ['.', '.'] then
        match acc with
        | top :: rest => if top = ['.', '.'] then c :: acc else rest
        | [] => if isAbs then [] else [c]
      else c :: acc)
    []
  let body := List.intercalate ['/'] stackRev.reverse
  String.mk (if isAbs then '/' :: body else body)

/-- Modelled from the spec: `llvh::sys::path::append(.., posix, target)`
(outside src/) — POSIX-style joining of a path and a further component. -/
def joinPosix (base target : String) : String :=
  if base.data = [] then target
  else String.mk (base.data ++ '/' :: target.data)

/-- The test `!target.empty() && target[0] == '/'` of `canonicalizePath`. -/
def startsWithSlash (s : String) : Bool :=
  match s.data with
  | '/' :: _ => true
  | _ => false

/-- `canonicalizePath` (part_000 lines 18-32): an absolute target (leading
slash) replaces the cleared base verbatim and returns early; a relative
target is appended to the base and the result has its dot components
removed. -/
def canonicalizePath (dirname target : String) : String :=
  if startsWithSlash target then target
  else removeDotsPosix (joinPosix dirname target)

/-- JS values as the file helpers inspect them: the helpers only distinguish
strings, numbers, undefined and (for fstat results) objects with numeric
properties.  JS numbers are modelled as integers; no helper relies on
fractional values. -/
inductive JSValue where
  | undefined
  | str (s : String)
  | num (n : Int)
  | obj (props : List (String × Int))
  deriving DecidableEq, Repr

def JSValue.isString : JSValue → Bool
  | JSValue.str _ => true
  | _ => false

def JSValue.isNumber : JSValue → Bool
  | JSValue.num _ => true
  | _ => false

/-- `jsi::Value::getNumber` — only called after an `isNumber` check. -/
def JSValue.getNumber : JSValue → Int
  | JSValue.num n => n
  | _ => 0

/-- `jsi::Value::asString(rt).utf8(rt)` — only called after an `isString`
check. -/
def JSValue.getString : JSValue → String
  | JSValue.str s => s
  | _ => ""

/-- Modelled from the spec: `jsi::Value::asNumber` (outside src/) raises a
catchable error when the value is not a number. -/
def JSValue.asNumber : JSValue → Except String Int
  | JSValue.num n => Except.ok n
  | _ => Except.error "Value is not a number"

/-- The fields of `uv_stat_t` that `fstat` reads. -/
structure Stat where
  st_dev : Int
  st_mode : Int
  st_nlink : Int
  st_uid : Int
  st_gid : Int
  st_rdev : Int
  st_blksize : Int
  st_ino : Int
  st_size : Int
  st_blocks : Int
  deriving DecidableEq, Repr

/-- The OS oracle: the outcomes of the libuv calls the helpers make, and the
`errno` / `strerror(errno)` observed after a failing call.  Each helper makes
at most one OS call, so a single observed errno suffices. -/
structure OS where
  fsOpen : String → Int → Int → Int
  fsClose : Int → Int
  fsFstat : Int → Int × Stat
  errno : Nat
  strerror : String

/-- `open` (part_000 lines 39-65): arity check (count < 5), type checks on
path/flags/mode, canonicalize the path against the runtime dirname, call
`uv_fs_open`, and either return the descriptor or raise an error naming the
original path, the errno and its strerror text. -/
def jsOpen (os : OS) (dirname : String) (args : List JSValue) :
    Except String JSValue :=
  if args.length < 5 then
    Except.error "Not enough arguments being passed into synchronous open call."
  else if !((args.getD 0 JSValue.undefined).isString &&
      (args.getD 1 JSValue.undefined).isNumber &&
      (args.getD 2 JSValue.undefined).isNumber) then
    Except.error "Incorrectly typed objects passed into synchronous open call."
  else
    let filenameUTF8 := (args.getD 0 JSValue.undefined).getString
    let fullFileName := canonicalizePath dirname filenameUTF8
    let flags := (args.getD 1 JSValue.undefined).getNumber
    let mode := (args.getD 2 JSValue.undefined).getNumber
    let fd := os.fsOpen fullFileName flags mode
    if fd < 0 then
      Except.error ("OpenSync failed on file '" ++ filenameUTF8 ++
        "' with errno " ++ toString os.errno ++ ": " ++ os.strerror)
    else
      Except.ok (JSValue.num fd)

/-- `close` (part_000 lines 70-90): arity check (count < 3), type check on
the descriptor, call `uv_fs_close`, raise on negative status naming the fd,
the errno and its strerror text, else return undefined. -/
def jsClose (os : OS) (args : List JSValue) : Except String JSValue :=
  if args.length < 3 then
    Except.error "Not enough arguments being passed into synchronous close call."
  else if !(args.getD 0 JSValue.undefined).isNumber then
    Except.error "Incorrectly typed objects passed into synchronous close call."
  else
    let fd := (args.getD 0 JSValue.undefined).getNumber
    let closeRes := os.fsClose fd
    if closeRes < 0 then
      Except.error ("Close failed on fd " ++ toString fd ++ " with errno " ++
        toString os.errno ++ ": " ++ os.strerror)
    else
      Except.ok JSValue.undefined

/-- `fstat` (part_000 lines 95-129): arity check (count < 4), `asNumber` on
the descriptor (raises on a non-number), call `uv_fs_fstat`, raise on
negative status naming the fd, the errno and its strerror text; on success
build the result object property by property exactly as the source does —
note line 124 sets `ino` from `st_size`. -/
def jsFstat (os : OS) (args : List JSValue) : Except String JSValue :=
  if args.length < 4 then
    Except.error "Not enough arguments being passed into synchronous fstat call."
  else
    match (args.getD 0 JSValue.undefined).asNumber with
    | Except.error e => Except.error e
    | Except.ok fd =>
      let r := os.fsFstat fd
      if r.1 < 0 then
        Except.error ("Fstat failed on fd " ++ toString fd ++ " with errno " ++
          toString os.errno ++ ": " ++ os.strerror)
      else
        let statbuf := r.2
        Except.ok (JSValue.obj
          [("dev", statbuf.st_dev),
           ("mode", statbuf.st_mode),
           ("nlink", statbuf.st_nlink),
           ("uid", statbuf.st_uid),
           ("gid", statbuf.st_gid),
           ("rdev", statbuf.st_rdev),
           ("blksize", statbuf.st_blksize),
           ("ino", statbuf.st_size),
           ("size", statbuf.st_size),
           ("blocks", statbuf.st_blocks)])

/-- `sub` occurs as a contiguous substring of `m`. -/
def msgContains (m sub : String) : Prop :=
  ∃ l r, m.data = l ++ sub.data ++ r

/-- Property lookup on an fstat result object. -/
def lookupProp (v : JSValue) (k : String) : Option Int :=
  match v with
  | JSValue.obj props => (props.lookup k)
  | _ => none

end Fs

namespace Fs

/-- C5: `canonicalizePath` resolves a relative target by POSIX-style joining
with the base followed by removal of dot components, and resolves an
absolute target (leading slash) verbatim from the root ignoring the base;
with base "/a/b" and target "../c/./d" the result is "/a/c/d", and target
"/x/y" gives "/x/y" for every base. -/
theorem claim5_canonicalizePath (base target : String) :
    (startsWithSlash target = false →
      canonicalizePath base target = removeDotsPosix (joinPosix base target)) ∧
    (startsWithSlash target = true →
      canonicalizePath base target = target) ∧
    canonicalizePath "/a/b" "../c/./d" = "/a/c/d" ∧
    canonicalizePath base "/x/y" = "/x/y" := by
  have habs : startsWithSlash "/x/y" = true := by decide
  refine ⟨fun h => ?_, fun h => ?_, by decide, ?_⟩ <;>
    simp [canonicalizePath, *]

/-- Witness for C5: the two conditional branches at concrete inputs. -/
theorem claim5_canonicalizePath_witness :
    canonicalizePath "/a/b" "../c/./d" =
      removeDotsPosix (joinPosix "/a/b" "../c/./d") ∧
    canonicalizePath "/q" "/x/y" = "/x/y" :=
  ⟨(claim5_canonicalizePath "/a/b" "../c/./d").1 (by decide),
   (claim5_canonicalizePath "/q" "/x/y").2.1 (by decide)⟩

/-- C10: an absolute target replaces the base verbatim and its own dot
components are NOT normalized, because the absolute branch returns before
`remove_dots` runs: "/x/../y" canonicalizes to "/x/../y" (for any base),
although dot removal would have produced "/y". -/
theorem claim10_absolute_verbatim (base target : String) :
    (startsWithSlash target = true →
      canonicalizePath base target = target) ∧
    canonicalizePath "/base" "/x/../y" = "/x/../y" ∧
    canonicalizePath "/base" "/x/../y" ≠ "/y" ∧
    removeDotsPosix "/x/../y" = "/y" := by
  refine ⟨fun h => ?_, by decide, by decide, by decide⟩
  simp [canonicalizePath, h]

/-- Witness for C10 at a concrete absolute target. -/
theorem claim10_absolute_verbatim_witness :
    canonicalizePath "/base" "/x/../y" = "/x/../y" :=
  (claim10_absolute_verbatim "/base" "/x/../y").1 (by decide)

/-- A concrete OS oracle on which `fstat` succeeds and the file's inode
number (5) differs from its byte size (10). -/
def osInoDemo : OS :=
  { fsOpen := fun _ _ _ => 3
    fsClose := fun _ => 0
    fsFstat := fun _ =>
      (0, { st_dev := 1, st_mode := 2, st_nlink := 1, st_uid := 4,
            st_gid := 5, st_rdev := 6, st_blksize := 7, st_ino := 5,
            st_size := 10, st_blocks := 8 })
    errno := 0
    strerror := "" }

/-- C6 (code bug): on a successful `fstat` the returned object's `ino`
property is set from `statbuf->st_size` (part_000 line 124), not from
`st_ino`: here the stat buffer has inode 5 and size 10, and the result
carries `ino = 10`.  All other nine properties do come from their
corresponding stat fields, and no time fields are present. -/
theorem claim6_ino_set_from_size :
    jsFstat osInoDemo
        [JSValue.num 3, JSValue.num 0, JSValue.undefined, JSValue.undefined] =
      Except.ok (JSValue.obj
        [("dev", 1), ("mode", 2), ("nlink", 1), ("uid", 4), ("gid", 5),
         ("rdev", 6), ("blksize", 7), ("ino", 10), ("size", 10),
         ("blocks", 8)]) ∧
    (osInoDemo.fsFstat 3).2.st_ino = 5 ∧
    lookupProp (JSValue.obj
        [("dev", 1), ("mode", 2), ("nlink", 1), ("uid", 4), ("gid", 5),
         ("rdev", 6), ("blksize", 7), ("ino", 10), ("size", 10),
         ("blocks", 8)]) "ino" ≠ some ((osInoDemo.fsFstat 3).2.st_ino) := by
  refine ⟨rfl, rfl, ?_⟩
  decide

end Fs

namespace Fs

/-- Membership of a middle piece in a concatenated message. -/
theorem msgContains_of_parts (pre mid post m : String)
    (h : m.data = pre.data ++ mid.data ++ post.data) : msgContains m mid :=
  ⟨pre.data, post.data, h⟩

/-- A non-number value makes `asNumber` raise. -/
theorem asNumber_of_not_number (v : JSValue) (h : v.isNumber = false) :
    v.asNumber = Except.error "Value is not a number" := by
  cases v <;> simp_all [JSValue.isNumber, JSValue.asNumber]

/-- C7: whenever the underlying OS call returns a negative status, each
helper raises an error (returning no value) whose message contains the
numeric errno, the strerror text, and the failing path (for `open`) or file
descriptor (for `close` and `fstat`). -/
theorem claim7_os_failure_errors :
    (∀ (os : OS) (dirname p : String) (f m : Int) (a b : JSValue),
      os.fsOpen (canonicalizePath dirname p) f m < 0 →
      jsOpen os dirname [JSValue.str p, JSValue.num f, JSValue.num m, a, b] =
        Except.error ("OpenSync failed on file '" ++ p ++ "' with errno " ++
          toString os.errno ++ ": " ++ os.strerror) ∧
      msgContains ("OpenSync failed on file '" ++ p ++ "' with errno " ++
          toString os.errno ++ ": " ++ os.strerror) (toString os.errno) ∧
      msgContains ("OpenSync failed on file '" ++ p ++ "' with errno " ++
          toString os.errno ++ ": " ++ os.strerror) os.strerror ∧
      msgContains ("OpenSync failed on file '" ++ p ++ "' with errno " ++
          toString os.errno ++ ": " ++ os.strerror) p) ∧
    (∀ (os : OS) (fd : Int) (a b : JSValue),
      os.fsClose fd < 0 →
      jsClose os [JSValue.num fd, a, b] =
        Except.error ("Close failed on fd " ++ toString fd ++ " with errno " ++
          toString os.errno ++ ": " ++ os.strerror) ∧
      msgContains ("Close failed on fd " ++ toString fd ++ " with errno " ++
          toString os.errno ++ ": " ++ os.strerror) (toString os.errno) ∧
      msgContains ("Close failed on fd " ++ toString fd ++ " with errno " ++
          toString os.errno ++ ": " ++ os.strerror) os.strerror ∧
      msgContains ("Close failed on fd " ++ toString fd ++ " with errno " ++
          toString os.errno ++ ": " ++ os.strerror) (toString fd)) ∧
    (∀ (os : OS) (fd : Int) (a b c : JSValue),
      (os.fsFstat fd).1 < 0 →
      jsFstat os [JSValue.num fd, a, b, c] =
        Except.error ("Fstat failed on fd " ++ toString fd ++ " with errno " ++
          toString os.errno ++ ": " ++ os.strerror) ∧
      msgContains ("Fstat failed on fd " ++ toString fd ++ " with errno " ++
          toString os.errno ++ ": " ++ os.strerror) (toString os.errno) ∧
      msgContains ("Fstat failed on fd " ++ toString fd ++ " with errno " ++
          toString os.errno ++ ": " ++ os.strerror) os.strerror ∧
      msgContains ("Fstat failed on fd " ++ toString fd ++ " with errno " ++
          toString os.errno ++ ": " ++ os.strerror) (toString fd)) := by
  refine ⟨fun os d p f m a b h => ⟨?_, ?_, ?_, ?_⟩,
          fun os fd a b h => ⟨?_, ?_, ?_, ?_⟩,
          fun os fd a b c h => ⟨?_, ?_, ?_, ?_⟩⟩
  · simp [jsOpen, JSValue.isString, JSValue.isNumber, JSValue.getString,
      JSValue.getNumber, List.getD, h]
  · exact msgContains_of_parts
      ("OpenSync failed on file '" ++ p ++ "' with errno ")
      (toString os.errno) (": " ++ os.strerror) _
      (by simp [String.data_append, List.append_assoc])
  · exact msgContains_of_parts
      ("OpenSync failed on file '" ++ p ++ "' with errno " ++
        toString os.errno ++ ": ") os.strerror "" _
      (by simp [String.data_append, List.append_assoc])
  · exact msgContains_of_parts "OpenSync failed on file '" p
      ("' with errno " ++ toString os.errno ++ ": " ++ os.strerror) _
      (by simp [String.data_append, List.append_assoc])
  · simp [jsClose, JSValue.isNumber, JSValue.getNumber, List.getD, h]
  · exact msgContains_of_parts
      ("Close failed on fd " ++ toString fd ++ " with errno ")
      (toString os.errno) (": " ++ os.strerror) _
      (by simp [String.data_append, List.append_assoc])
  · exact msgContains_of_parts
      ("Close failed on fd " ++ toString fd ++ " with errno " ++
        toString os.errno ++ ": ") os.strerror "" _
      (by simp [String.data_append, List.append_assoc])
  · exact msgContains_of_parts "Close failed on fd " (toString fd)
      (" with errno " ++ toString os.errno ++ ": " ++ os.strerror) _
      (by simp [String.data_append, List.append_assoc])
  · simp [jsFstat, JSValue.asNumber, List.getD, h]
  · exact msgContains_of_parts
      ("Fstat failed on fd " ++ toString fd ++ " with errno ")
      (toString os.errno) (": " ++ os.strerror) _
      (by simp [String.data_append, List.append_assoc])
  · exact msgContains_of_parts
      ("Fstat failed on fd " ++ toString fd ++ " with errno " ++
        toString os.errno ++ ": ") os.strerror "" _
      (by simp [String.data_append, List.append_assoc])
  · exact msgContains_of_parts "Fstat failed on fd " (toString fd)
      (" with errno " ++ toString os.errno ++ ": " ++ os.strerror) _
      (by simp [String.data_append, List.append_assoc])

end Fs

namespace Fs

/-- A concrete OS oracle on which every call fails with errno 2. -/
def osFail : OS :=
  { fsOpen := fun _ _ _ => -1
    fsClose := fun _ => -1
    fsFstat := fun _ =>
      (-1, { st_dev := 0, st_mode := 0, st_nlink := 0, st_uid := 0,
             st_gid := 0, st_rdev := 0, st_blksize := 0, st_ino := 0,
             st_size := 0, st_blocks := 0 })
    errno := 2
    strerror := "No such file or directory" }

/-- Witness for C7: the three failing helpers on `osFail`. -/
theorem claim7_os_failure_errors_witness :
    (jsOpen osFail "/base"
        [JSValue.str "missing.txt", JSValue.num 0, JSValue.num 0,
         JSValue.undefined, JSValue.undefined] =
      Except.error ("OpenSync failed on file '" ++ "missing.txt" ++
        "' with errno " ++ toString osFail.errno ++ ": " ++ osFail.strerror) ∧
      msgContains ("OpenSync failed on file '" ++ "missing.txt" ++
        "' with errno " ++ toString osFail.errno ++ ": " ++ osFail.strerror)
        (toString osFail.errno) ∧
      msgContains ("OpenSync failed on file '" ++ "missing.txt" ++
        "' with errno " ++ toString osFail.errno ++ ": " ++ osFail.strerror)
        osFail.strerror ∧
      msgContains ("OpenSync failed on file '" ++ "missing.txt" ++
        "' with errno " ++ toString osFail.errno ++ ": " ++ osFail.strerror)
        "missing.txt") ∧
    (jsClose osFail [JSValue.num 9, JSValue.undefined, JSValue.undefined] =
      Except.error ("Close failed on fd " ++ toString (9 : Int) ++
        " with errno " ++ toString osFail.errno ++ ": " ++ osFail.strerror) ∧
      msgContains ("Close failed on fd " ++ toString (9 : Int) ++
        " with errno " ++ toString osFail.errno ++ ": " ++ osFail.strerror)
        (toString osFail.errno) ∧
      msgContains ("Close failed on fd " ++ toString (9 : Int) ++
        " with errno " ++ toString osFail.errno ++ ": " ++ osFail.strerror)
        osFail.strerror ∧
      msgContains ("Close failed on fd " ++ toString (9 : Int) ++
        " with errno " ++ toString osFail.errno ++ ": " ++ osFail.strerror)
        (toString (9 : Int))) ∧
    (jsFstat osFail [JSValue.num 9, JSValue.undefined, JSValue.undefined,
        JSValue.undefined] =
      Except.error ("Fstat failed on fd " ++ toString (9 : Int) ++
        " with errno " ++ toString osFail.errno ++ ": " ++ osFail.strerror) ∧
      msgContains ("Fstat failed on fd " ++ toString (9 : Int) ++
        " with errno " ++ toString osFail.errno ++ ": " ++ osFail.strerror)
        (toString osFail.errno) ∧
      msgContains ("Fstat failed on fd " ++ toString (9 : Int) ++
        " with errno " ++ toString osFail.errno ++ ": " ++ osFail.strerror)
        osFail.strerror ∧
      msgContains ("Fstat failed on fd " ++ toString (9 : Int) ++
        " with errno " ++ toString osFail.errno ++ ": " ++ osFail.strerror)
        (toString (9 : Int))) :=
  ⟨claim7_os_failure_errors.1 osFail "/base" "missing.txt" 0 0
      JSValue.undefined JSValue.undefined (by decide),
   claim7_os_failure_errors.2.1 osFail 9
      JSValue.undefined JSValue.undefined (by decide),
   claim7_os_failure_errors.2.2 osFail 9
      JSValue.undefined JSValue.undefined JSValue.undefined (by decide)⟩

/-- C8: wrong arity or a wrongly typed argument makes each helper raise a
catchable error; the result does not depend on the OS oracle (no OS call is
made) and the bad argument is never coerced into a success. -/
theorem claim8_argument_validation :
    (∀ (os os2 : OS) (d : String) (args : List JSValue), args.length < 5 →
      jsOpen os d args =
        Except.error
          "Not enough arguments being passed into synchronous open call." ∧
      jsOpen os d args = jsOpen os2 d args) ∧
    (∀ (os os2 : OS) (d : String) (args : List JSValue), ¬ args.length < 5 →
      ((args.getD 0 JSValue.undefined).isString = false ∨
        (args.getD 1 JSValue.undefined).isNumber = false ∨
        (args.getD 2 JSValue.undefined).isNumber = false) →
      jsOpen os d args =
        Except.error
          "Incorrectly typed objects passed into synchronous open call." ∧
      jsOpen os d args = jsOpen os2 d args) ∧
    (∀ (os os2 : OS) (args : List JSValue), args.length < 3 →
      jsClose os args =
        Except.error
          "Not enough arguments being passed into synchronous close call." ∧
      jsClose os args = jsClose os2 args) ∧
    (∀ (os os2 : OS) (args : List JSValue), ¬ args.length < 3 →
      (args.getD 0 JSValue.undefined).isNumber = false →
      jsClose os args =
        Except.error
          "Incorrectly typed objects passed into synchronous close call." ∧
      jsClose os args = jsClose os2 args) ∧
    (∀ (os os2 : OS) (args : List JSValue), args.length < 4 →
      jsFstat os args =
        Except.error
          "Not enough arguments being passed into synchronous fstat call." ∧
      jsFstat os args = jsFstat os2 args) ∧
    (∀ (os os2 : OS) (args : List JSValue), ¬ args.length < 4 →
      (args.getD 0 JSValue.undefined).isNumber = false →
      jsFstat os args = Except.error "Value is not a number" ∧
      jsFstat os args = jsFstat os2 args) := by
  refine ⟨fun os os2 d args h => ?_, fun os os2 d args h ht => ?_,
          fun os os2 args h => ?_, fun os os2 args h ht => ?_,
          fun os os2 args h => ?_, fun os os2 args h ht => ?_⟩
  · constructor <;> simp [jsOpen, h]
  · simp at ht
    constructor <;> rcases ht with ht | ht | ht <;> simp [jsOpen, h, ht]
  · constructor <;> simp [jsClose, h]
  · simp at ht
    constructor <;> simp [jsClose, h, ht]
  · constructor <;> simp [jsFstat, h]
  · have ha := asNumber_of_not_number (args.getD 0 JSValue.undefined) ht
    simp at ha
    constructor <;> simp [jsFstat, h, ha]

/-- Witness for C8: wrong arity and wrong types at concrete inputs, with two
different OS oracles. -/
theorem claim8_argument_validation_witness :
    (jsOpen osFail "/b" [JSValue.str "f"] =
      Except.error
        "Not enough arguments being passed into synchronous open call." ∧
      jsOpen osFail "/b" [JSValue.str "f"] =
        jsOpen osInoDemo "/b" [JSValue.str "f"]) ∧
    (jsOpen osFail "/b"
        [JSValue.num 1, JSValue.num 0, JSValue.num 0, JSValue.undefined,
         JSValue.undefined] =
      Except.error
        "Incorrectly typed objects passed into synchronous open call." ∧
      jsOpen osFail "/b"
          [JSValue.num 1, JSValue.num 0, JSValue.num 0, JSValue.undefined,
           JSValue.undefined] =
        jsOpen osInoDemo "/b"
          [JSValue.num 1, JSValue.num 0, JSValue.num 0, JSValue.undefined,
           JSValue.undefined]) ∧
    (jsClose osFail [JSValue.num 3] =
      Except.error
        "Not enough arguments being passed into synchronous close call." ∧
      jsClose osFail [JSValue.num 3] = jsClose osInoDemo [JSValue.num 3]) ∧
    (jsClose osFail [JSValue.str "3", JSValue.undefined, JSValue.undefined] =
      Except.error
        "Incorrectly typed objects passed into synchronous close call." ∧
      jsClose osFail [JSValue.str "3", JSValue.undefined, JSValue.undefined] =
        jsClose osInoDemo
          [JSValue.str "3", JSValue.undefined, JSValue.undefined]) ∧
    (jsFstat osFail [JSValue.num 3] =
      Except.error
        "Not enough arguments being passed into synchronous fstat call." ∧
      jsFstat osFail [JSValue.num 3] = jsFstat osInoDemo [JSValue.num 3]) ∧
    (jsFstat osFail
        [JSValue.str "3", JSValue.undefined, JSValue.undefined,
         JSValue.undefined] =
      Except.error "Value is not a number" ∧
      jsFstat osFail
          [JSValue.str "3", JSValue.undefined, JSValue.undefined,
           JSValue.undefined] =
        jsFstat osInoDemo
          [JSValue.str "3", JSValue.undefined, JSValue.undefined,
           JSValue.undefined]) :=
  ⟨claim8_argument_validation.1 osFail osInoDemo "/b" [JSValue.str "f"]
      (by decide),
   claim8_argument_validation.2.1 osFail osInoDemo "/b"
      [JSValue.num 1, JSValue.num 0, JSValue.num 0, JSValue.undefined,
       JSValue.undefined] (by decide) (by decide),
   claim8_argument_validation.2.2.1 osFail osInoDemo [JSValue.num 3]
      (by decide),
   claim8_argument_validation.2.2.2.1 osFail osInoDemo
      [JSValue.str "3", JSValue.undefined, JSValue.undefined]
      (by decide) (by decide),
   claim8_argument_validation.2.2.2.2.1 osFail osInoDemo [JSValue.num 3]
      (by decide),
   claim8_argument_validation.2.2.2.2.2 osFail osInoDemo
      [JSValue.str "3", JSValue.undefined, JSValue.undefined,
       JSValue.undefined] (by decide) (by decide)⟩

end Fs

namespace Fs

/-- A concrete OS oracle on which `uv_fs_open` succeeds (returns fd 3). -/
def osOpenOk : OS :=
  { fsOpen := fun _ _ _ => 3
    fsClose := fun _ => 0
    fsFstat := fun _ =>
      (0, { st_dev := 0, st_mode := 0, st_nlink := 0, st_uid := 0,
            st_gid := 0, st_rdev := 0, st_blksize := 0, st_ino := 0,
            st_size := 0, st_blocks := 0 })
    errno := 0
    strerror := "" }

/-- Counterexample to C9 as stated: calling `open` with exactly the three
arguments path, flags, mode IS rejected for wrong arity (the code requires
at least 5 arguments), even on an OS where the open call would succeed, so
no file descriptor is returned. -/
theorem claim9_three_args_counterexample :
    jsOpen osOpenOk "/base"
        [JSValue.str "missing.txt", JSValue.num 0, JSValue.num 0] =
      Except.error
        "Not enough arguments being passed into synchronous open call." ∧
    jsOpen osOpenOk "/base"
        [JSValue.str "missing.txt", JSValue.num 0, JSValue.num 0] ≠
      Except.ok (JSValue.num
        (osOpenOk.fsOpen (canonicalizePath "/base" "missing.txt") 0 0)) :=
  ⟨rfl, fun hc => nomatch hc⟩

/-- C9 (amended): `open` called with the full five-argument convention
(path, flags, mode, callback, ctx) returns the file descriptor when the OS
open succeeds, and when it fails (e.g. the file does not exist) an error
whose message contains the OS errno text; a call with only the three
arguments path, flags, mode is rejected for wrong arity. -/
theorem claim9_open_amended (os : OS) (dirname p : String) (f m : Int)
    (a b : JSValue) :
    (0 ≤ os.fsOpen (canonicalizePath dirname p) f m →
      jsOpen os dirname [JSValue.str p, JSValue.num f, JSValue.num m, a, b] =
        Except.ok (JSValue.num
          (os.fsOpen (canonicalizePath dirname p) f m))) ∧
    (os.fsOpen (canonicalizePath dirname p) f m < 0 →
      jsOpen os dirname [JSValue.str p, JSValue.num f, JSValue.num m, a, b] =
        Except.error ("OpenSync failed on file '" ++ p ++ "' with errno " ++
          toString os.errno ++ ": " ++ os.strerror) ∧
      msgContains ("OpenSync failed on file '" ++ p ++ "' with errno " ++
          toString os.errno ++ ": " ++ os.strerror) (toString os.errno)) ∧
    jsOpen os dirname [JSValue.str p, JSValue.num f, JSValue.num m] =
      Except.error
        "Not enough arguments being passed into synchronous open call." := by
  refine ⟨fun h => ?_, fun h => ⟨?_, ?_⟩, ?_⟩
  · have hn : ¬ os.fsOpen (canonicalizePath dirname p) f m < 0 :=
      not_lt.mpr h
    simp [jsOpen, JSValue.isString, JSValue.isNumber, JSValue.getString,
      JSValue.getNumber, List.getD, hn]
  · simp [jsOpen, JSValue.isString, JSValue.isNumber, JSValue.getString,
      JSValue.getNumber, List.getD, h]
  · exact msgContains_of_parts
      ("OpenSync failed on file '" ++ p ++ "' with errno ")
      (toString os.errno) (": " ++ os.strerror) _
      (by simp [String.data_append, List.append_assoc])
  · simp [jsOpen]

/-- Witness for C9 (amended): the success branch on `osOpenOk` and the
failure branch on `osFail`. -/
theorem claim9_open_amended_witness :
    jsOpen osOpenOk "/base"
        [JSValue.str "missing.txt", JSValue.num 0, JSValue.num 0,
         JSValue.undefined, JSValue.undefined] =
      Except.ok (JSValue.num
        (osOpenOk.fsOpen (canonicalizePath "/base" "missing.txt") 0 0)) ∧
    (jsOpen osFail "/base"
        [JSValue.str "missing.txt", JSValue.num 0, JSValue.num 0,
         JSValue.undefined, JSValue.undefined] =
      Except.error ("OpenSync failed on file '" ++ "missing.txt" ++
        "' with errno " ++ toString osFail.errno ++ ": " ++ osFail.strerror) ∧
      msgContains ("OpenSync failed on file '" ++ "missing.txt" ++
        "' with errno " ++ toString osFail.errno ++ ": " ++ osFail.strerror)
        (toString osFail.errno)) :=
  ⟨(claim9_open_amended osOpenOk "/base" "missing.txt" 0 0
      JSValue.undefined JSValue.undefined).1 (by decide),
   (claim9_open_amended osFail "/base" "missing.txt" 0 0
      JSValue.undefined JSValue.undefined).2.1 (by decide)⟩

end Fs
